import Mathlib

/-!
# structql-demo: a shallow embedding of `main.go`

The program declares one record type (`Person`), opens a connection through the
external `structql` library, creates the `people` table, and prints rows.

The external collaborators (the `structql` connection and the `logger` package)
are not part of the repository.  They are modelled as follows.

* A `Connection` is an oracle: every method receives the operations issued on the
  connection so far and returns what the Go method returns.  Quantifying over all
  `Connection`s quantifies over every outcome of every call.
* Every call on the connection is appended to `World.trace`; every call of the
  logger is appended to `World.log` (format string and arguments, unrendered).
* A Go `error` is its message; `nil` is `none`.
* `int32` and `int` values are integers; the program does no arithmetic on them.
-/

namespace StructqlDemo

/-! ## Data model -/

/-- A non-nil Go `error`, identified with the text its `Error()` method returns. -/
structure Error where
  msg : String
deriving DecidableEq, Repr

/-- The record type `Person` of `main.go`.  The defaults are Go's zero values, so that
`{ Name := n, Age := a, Email := e }` is the composite literal of `NewPerson` and `{}` is
`Person{}`. -/
structure Person where
  ID : Int := 0
  Name : String := ""
  Age : Int := 0
  Email : String := ""
deriving DecidableEq, Repr

/-- The declared Go types occurring in `Person`. -/
inductive GoType where
  | int32
  | string
deriving DecidableEq, Repr

/-- One declared struct field: its name, its declared type, and its struct tag as the
key/value pairs written in the source, in the order written. -/
structure StructField where
  name : String
  typ : GoType
  tag : List (String × String)
deriving DecidableEq, Repr

/-- The value of a tag key, `none` when the key is absent (Go's `StructTag.Lookup`). -/
def StructField.lookup (f : StructField) (key : String) : Option String :=
  (f.tag.find? (fun kv => kv.1 == key)).map (fun kv => kv.2)

/-- The field declarations of `type Person struct`, in declaration order. -/
def PersonFields : List StructField :=
  [ { name := "ID", typ := GoType.int32,
      tag := [("sql", "id"), ("typ", "SERIAL"), ("opt", "PRIMARY KEY")] },
    { name := "Name", typ := GoType.string, tag := [("sql", "name")] },
    { name := "Age", typ := GoType.int32, tag := [("sql", "age")] },
    { name := "Email", typ := GoType.string, tag := [("sql", "email")] } ]

/-- An element of the `[]interface{}` a select returns: a `Person`, or a value of some
other dynamic type (named by `dyn`), on which the assertion `row.(Person)` panics. -/
inductive Row where
  | person (p : Person)
  | other (dyn : String)
deriving DecidableEq, Repr

/-- A method call issued on the connection, with its arguments in source order. -/
inductive Op where
  | CreateTableFromObject (table : String) (obj : Person)
  | InsertObject (table : String) (obj : Person)
  | SelectFrom (obj : Person) (table : String)
  | SelectFromWhere (obj : Person) (table : String) (cond : String)
  | Close
deriving DecidableEq, Repr

/-- An argument handed to the logger. -/
inductive Value where
  | int (n : Int)
  | str (s : String)
  | err (e : Error)
deriving DecidableEq, Repr

/-- The logger entry points the program uses. -/
inductive Level where
  | Info
  | Error
  | Fatal
deriving DecidableEq, Repr

/-- One call of the logger: entry point, format string, arguments. -/
structure LogEntry where
  level : Level
  format : String
  args : List Value
deriving DecidableEq, Repr

/-- The behaviour of a `*structql.Connection`.  Each method is given the operations issued
so far (oldest first) and its arguments, and returns the Go method's results; the second
component is the returned `error` (`none` for `nil`). -/
structure Connection where
  CreateTableFromObject : List Op → String → Person → Option Error
  InsertObject : List Op → String → Person → Int × Option Error
  SelectFrom : List Op → Person → String → List Row × Option Error
  SelectFromWhere : List Op → Person → String → String → List Row × Option Error

/-- The driver kinds of `structql` that the program names. -/
inductive DriverKind where
  | Postgres
deriving DecidableEq, Repr

/-- The fields of `structql.ConnectionConfig` that `main` sets. -/
structure ConnectionConfig where
  Database : String
  User : String
  Password : String
  Host : String
  Port : String
  Driver : DriverKind
deriving DecidableEq, Repr

/-- What the program has done so far: calls on the connection and calls of the logger. -/
structure World where
  trace : List Op
  log : List LogEntry
deriving DecidableEq, Repr

/-- The world at process start. -/
def World.start : World := { trace := [], log := [] }

/-- Record a call on the connection. -/
def World.call (w : World) (op : Op) : World := { w with trace := w.trace ++ [op] }

/-- Record a call of the logger. -/
def World.emit (w : World) (l : Level) (format : String) (args : List Value) : World :=
  { w with log := w.log ++ [{ level := l, format := format, args := args }] }

/-! ## Formatting -/

/-- The verb `%v` of Go's `fmt`, for a format whose verbs are all `%v`: each `%v` is
replaced by the next argument's text.  (The program never supplies fewer arguments than
verbs to `fmt.Errorf`.) -/
def formatV : List Char → List String → List Char
  | '%' :: 'v' :: rest, a :: args => a.data ++ formatV rest args
  | c :: rest, args => c :: formatV rest args
  | [], _ => []

/-- The call `fmt.Errorf(format, err)` with a non-nil `err`: `%v` prints `err.Error()`. -/
def Errorf (format : String) (err : Error) : Error :=
  { msg := String.mk (formatV format.data [err.msg]) }

/-! ## The program -/

/-- How a Go function call ends: it returns a value, or it panics. -/
inductive Outcome (α : Type) where
  | returned (a : α)
  | panicked
deriving DecidableEq, Repr

/-- How the process ends: `main` returns, `logger.Fatal` terminates it, or a panic
reaches the top of `main`. -/
inductive Exit where
  | returned
  | fatal
  | panicked
deriving DecidableEq, Repr

/-- The source's `NewPerson`: builds the record without an `ID`, issues `InsertObject` on
`"people"`, and returns the identity together with the wrapped error, if any. -/
def NewPerson (name : String) (age : Int) (email : String) (conn : Connection) (w : World) :
    (Int × Option Error) × World :=
  let person : Person := { Name := name, Age := age, Email := email }
  let r := conn.InsertObject w.trace "people" person
  let w1 := w.call (Op.InsertObject "people" person)
  match r.2 with
  | some err => ((r.1, some (Errorf "failed to insert person into people table: %v" err)), w1)
  | none => ((r.1, none), w1)

/-- The loop `for _, row := range people { person := row.(Person); logger.Info(format, ...) }`
shared by `PrintPeople` and `PrintBoomers` (they differ in the format only).  The type
assertion panics on a row that is not a `Person`, which ends the loop. -/
def rangeRows (format : String) : List Row → World → Outcome Unit × World
  | [], w => (Outcome.returned (), w)
  | Row.person person :: rest, w =>
    rangeRows format rest
      (w.emit Level.Info format
        [Value.int person.ID, Value.str person.Name, Value.int person.Age,
          Value.str person.Email])
  | Row.other _ :: _, w => (Outcome.panicked, w)

/-- The source's `PrintPeople`. -/
def PrintPeople (conn : Connection) (w : World) : Outcome (Option Error) × World :=
  let r := conn.SelectFrom w.trace {} "people"
  let w1 := w.call (Op.SelectFrom {} "people")
  match r.2 with
  | some err => (Outcome.returned (some (Errorf "failed to select from people table: %v" err)), w1)
  | none =>
    match rangeRows "PERSID: %v, Name: %v, Age: %v, Email: %v" r.1 w1 with
    | (Outcome.panicked, w2) => (Outcome.panicked, w2)
    | (Outcome.returned _, w2) => (Outcome.returned none, w2)

/-- The source's `PrintBoomers`. -/
def PrintBoomers (conn : Connection) (w : World) : Outcome (Option Error) × World :=
  let r := conn.SelectFromWhere w.trace {} "people" "age >= 75"
  let w1 := w.call (Op.SelectFromWhere {} "people" "age >= 75")
  match r.2 with
  | some err => (Outcome.returned (some (Errorf "failed to select from people table: %v" err)), w1)
  | none =>
    match rangeRows "BOOMER[ID: %v, Name: %v, Age: %v, Email: %v]" r.1 w1 with
    | (Outcome.panicked, w2) => (Outcome.panicked, w2)
    | (Outcome.returned _, w2) => (Outcome.returned none, w2)

/-- The source's `populatePeople`, with the messages exactly as written there. -/
def populatePeople (conn : Connection) (w : World) : Option Error × World :=
  match NewPerson "Jacoby Joukema" 23 "jacoby.joukema@inflowml.com" conn w with
  | ((_, some err), w1) =>
    (some (Errorf "failed to insert Jacoby Joukema into people table: %v" err), w1)
  | ((id, none), w1) =>
    let w1 := w1.emit Level.Info "Added Jacoby Joukema to database, assigned id: %v" [Value.int id]
    match NewPerson "Foo Bar" 28 "foobar@inflowml.com" conn w1 with
    | ((_, some err), w2) =>
      (some (Errorf "failed to insert Jacoby Joukema into people table: %v" err), w2)
    | ((id, none), w2) =>
      let w2 := w2.emit Level.Info "Added Foo Bar to database, assigned id: %v" [Value.int id]
      match NewPerson "John Henry Eden" 97 "john.henry@enclave.com" conn w2 with
      | ((_, some err), w3) =>
        (some (Errorf "failed to insert Jacoby Joukema into people table: %v" err), w3)
      | ((id, none), w3) =>
        (none, w3.emit Level.Info "Added John Henry Eden to database, assigned id: %v"
          [Value.int id])

/-- The `dbConfig` literal of `main`. -/
def dbConfig : ConnectionConfig :=
  { Database := "testdb", User := "structqldemo", Password := "structqlpw",
    Host := "localhost", Port := "5432", Driver := DriverKind.Postgres }

/-- The statements of `main` after the connection check (source lines 38 to 57).  The call
of `populatePeople` is commented out in the source and is therefore absent here. -/
def mainBody (conn : Connection) (w : World) : Exit × World :=
  let err := conn.CreateTableFromObject w.trace "people" {}
  let w1 := w.call (Op.CreateTableFromObject "people" {})
  let w2 := match err with
    | some e => w1.emit Level.Error "failed to create people table: %v" [Value.err e]
    | none => w1
  match PrintPeople conn w2 with
  | (Outcome.panicked, w3) => (Exit.panicked, w3)
  | (Outcome.returned err, w3) =>
    let w4 := match err with
      | some e =>
        w3.emit Level.Error "encountered an error while attempting to print table" [Value.err e]
      | none => w3
    match PrintBoomers conn w4 with
    | (Outcome.panicked, w5) => (Exit.panicked, w5)
    | (Outcome.returned err, w5) =>
      let w6 := match err with
        | some e =>
          w5.emit Level.Error "encountered an error while attempting to print boomers"
            [Value.err e]
        | none => w5
      (Exit.returned, w6)

/-- The source's `main`, run from process start.  `Connect` is the external
`structql.Connect`, which yields either a non-nil error or a usable connection.
`logger.Fatal` logs and terminates the process, so the deferred `conn.Close()` does not run
on that path; it runs when `main` returns and when a panic unwinds `main`. -/
def main (Connect : ConnectionConfig → Except Error Connection) : Exit × World :=
  let w := World.start.emit Level.Info "Attempting to Connect to SQL Server" []
  match Connect dbConfig with
  | Except.error err =>
    (Exit.fatal,
      w.emit Level.Fatal
        "failed to connect to SQL database with provided ConnectionConfig: %v" [Value.err err])
  | Except.ok conn =>
    let r := mainBody conn w
    (r.1, r.2.call Op.Close)

/-! ## The store's reading of a condition

The text passed to `SelectFromWhere` is evaluated by the database, outside the
repository.  To state which records a condition selects, conditions of the shape
`<column> <comparison> <integer>` are given their SQL meaning on a `Person`. -/

/-- The words of a text, separated at blanks (empty words included). -/
def splitBlanks : List Char → List (List Char)
  | [] => [[]]
  | c :: cs =>
    if c = ' ' then [] :: splitBlanks cs
    else
      match splitBlanks cs with
      | [] => [[c]]
      | word :: more => (c :: word) :: more

/-- The value of a non-empty run of decimal digits. -/
def readNat (cs : List Char) : Option Nat :=
  if cs ≠ [] ∧ cs.all (fun c => decide ('0' ≤ c ∧ c ≤ '9')) then
    some (cs.foldl (fun n c => 10 * n + (c.toNat - '0'.toNat)) 0)
  else none

/-- The integer stored in the column of the given name (the `sql` tags of `Person`);
`none` for a column that is absent or not integer-typed. -/
def Person.intColumn (p : Person) (col : List Char) : Option Int :=
  if col = "id".data then some p.ID
  else if col = "age".data then some p.Age
  else none

/-- The SQL comparison operators. -/
def compareBy (op : List Char) (a b : Int) : Option Bool :=
  if op = ">=".data then some (decide (a ≥ b))
  else if op = "<=".data then some (decide (a ≤ b))
  else if op = ">".data then some (decide (a > b))
  else if op = "<".data then some (decide (a < b))
  else if op = "=".data then some (decide (a = b))
  else none

/-- Whether a record satisfies a condition `<column> <comparison> <integer>`; `none` when
the text is not of that shape. -/
def satisfies (cond : String) (p : Person) : Option Bool :=
  match (splitBlanks cond.data).filter (fun word => word ≠ []) with
  | [col, op, lit] =>
    match p.intColumn col, readNat lit with
    | some a, some b => compareBy op a (Int.ofNat b)
    | _, _ => none
  | _ => none

/-! ## Sample connections -/

/-- A connection on which every call succeeds; inserts are numbered from 1 and selects
return no rows. -/
def quietConn : Connection :=
  { CreateTableFromObject := fun _ _ _ => none
    InsertObject := fun h _ _ => (Int.ofNat (h.length + 1), none)
    SelectFrom := fun _ _ _ => ([], none)
    SelectFromWhere := fun _ _ _ _ => ([], none) }

/-- A connection on which every call fails with the error `boom`. -/
def brokenConn : Connection :=
  { CreateTableFromObject := fun _ _ _ => some { msg := "boom" }
    InsertObject := fun _ _ _ => (0, some { msg := "boom" })
    SelectFrom := fun _ _ _ => ([], some { msg := "boom" })
    SelectFromWhere := fun _ _ _ _ => ([], some { msg := "boom" }) }

/-- A connection whose first insert succeeds and whose later inserts fail with `boom`. -/
def secondInsertFails : Connection :=
  { quietConn with
    InsertObject := fun h _ _ => if h = [] then (1, none) else (0, some { msg := "boom" }) }

/-- A connection whose first two inserts succeed and whose later inserts fail with `boom`. -/
def thirdInsertFails : Connection :=
  { quietConn with
    InsertObject := fun h _ _ =>
      if h.length < 2 then (Int.ofNat (h.length + 1), none) else (0, some { msg := "boom" }) }

/-- The three records of `populatePeople` as stored, with identities 1, 2, 3. -/
def storedPeople : List Person :=
  [ { ID := 1, Name := "Jacoby Joukema", Age := 23, Email := "jacoby.joukema@inflowml.com" },
    { ID := 2, Name := "Foo Bar", Age := 28, Email := "foobar@inflowml.com" },
    { ID := 3, Name := "John Henry Eden", Age := 97, Email := "john.henry@enclave.com" } ]

/-- A populated store: `SelectFrom` returns the three records, `SelectFromWhere` the one
that is at least 75. -/
def populatedConn : Connection :=
  { quietConn with
    SelectFrom := fun _ _ _ => (storedPeople.map Row.person, none)
    SelectFromWhere := fun _ _ _ _ => ((storedPeople.drop 2).map Row.person, none) }

/-- A store whose `SelectFrom` returns the three records and whose `SelectFromWhere` fails
with `boom`. -/
def peopleOnlyConn : Connection :=
  { quietConn with
    SelectFrom := fun _ _ _ => (storedPeople.map Row.person, none)
    SelectFromWhere := fun _ _ _ _ => ([], some { msg := "boom" }) }

/-- A connection whose `SelectFrom` returns a row that is not a `Person`. -/
def untypedConn : Connection :=
  { quietConn with SelectFrom := fun _ _ _ => ([Row.other "string"], none) }

/-! ## Definitions used in the statements -/

/-- The entry `logger.Info(format, person.ID, person.Name, person.Age, person.Email)`. -/
def rowEntry (format : String) (p : Person) : LogEntry :=
  { level := Level.Info, format := format,
    args := [Value.int p.ID, Value.str p.Name, Value.int p.Age, Value.str p.Email] }

/-- The record `populatePeople` hands to its first insert. -/
def jacoby : Person :=
  { ID := 0, Name := "Jacoby Joukema", Age := 23, Email := "jacoby.joukema@inflowml.com" }

/-- The record `populatePeople` hands to its second insert. -/
def fooBar : Person :=
  { ID := 0, Name := "Foo Bar", Age := 28, Email := "foobar@inflowml.com" }

/-- The record `populatePeople` hands to its third insert. -/
def johnHenry : Person :=
  { ID := 0, Name := "John Henry Eden", Age := 97, Email := "john.henry@enclave.com" }

/-- What the connection answers to the first insert of `populatePeople`. -/
def firstInsert (conn : Connection) (w : World) : Int × Option Error :=
  conn.InsertObject w.trace "people" jacoby

/-- What the connection answers to the second insert, issued after the first. -/
def secondInsert (conn : Connection) (w : World) : Int × Option Error :=
  conn.InsertObject (w.trace ++ [Op.InsertObject "people" jacoby]) "people" fooBar

/-- What the connection answers to the third insert, issued after the first two. -/
def thirdInsert (conn : Connection) (w : World) : Int × Option Error :=
  conn.InsertObject
    (w.trace ++ [Op.InsertObject "people" jacoby] ++ [Op.InsertObject "people" fooBar])
    "people" johnHenry

/-- Whether `pat` is an initial segment of `text`. -/
def beginsWith : List Char → List Char → Bool
  | [], _ => true
  | _ :: _, [] => false
  | p :: ps, c :: cs => p == c && beginsWith ps cs

/-- Whether `pat` occurs somewhere in `text`. -/
def occursIn (pat : List Char) : List Char → Bool
  | [] => pat.isEmpty
  | c :: cs => beginsWith pat (c :: cs) || occursIn pat cs

/-- Whether a call is an `InsertObject`. -/
def Op.isInsert : Op → Bool
  | Op.InsertObject _ _ => true
  | _ => false

/-- A `Connect` that fails with `refused`. -/
def refusedConnect : ConnectionConfig → Except Error Connection :=
  fun _ => Except.error { msg := "refused" }

/-! ## Auxiliary facts -/

theorem Errorf_insert_person (e : Error) :
    Errorf "failed to insert person into people table: %v" e
      = { msg := "failed to insert person into people table: " ++ e.msg } := by
  unfold Errorf
  congr 1
  apply String.ext
  simp [formatV]

theorem Errorf_select_people (e : Error) :
    Errorf "failed to select from people table: %v" e
      = { msg := "failed to select from people table: " ++ e.msg } := by
  unfold Errorf
  congr 1
  apply String.ext
  simp [formatV]

theorem Errorf_insert_jacoby (e : Error) :
    Errorf "failed to insert Jacoby Joukema into people table: %v" e
      = { msg := "failed to insert Jacoby Joukema into people table: " ++ e.msg } := by
  unfold Errorf
  congr 1
  apply String.ext
  simp [formatV]

theorem rangeRows_trace (format : String) (rows : List Row) (w : World) :
    (rangeRows format rows w).2.trace = w.trace := by
  induction rows generalizing w with
  | nil => rfl
  | cons r rest ih =>
    cases r with
    | person p => simp [rangeRows, ih, World.emit]
    | other d => rfl

theorem rangeRows_persons (format : String) (ps : List Person) (w : World) :
    rangeRows format (ps.map Row.person) w
      = (Outcome.returned (), { w with log := w.log ++ ps.map (rowEntry format) }) := by
  induction ps generalizing w with
  | nil => simp [rangeRows]
  | cons p rest ih => simp [rangeRows, ih, World.emit, rowEntry]

theorem PrintPeople_trace (conn : Connection) (w : World) :
    (PrintPeople conn w).2.trace = w.trace ++ [Op.SelectFrom {} "people"] := by
  cases h : (conn.SelectFrom w.trace {} "people").2 with
  | some e => simp [PrintPeople, h, World.call]
  | none =>
    have ht := rangeRows_trace "PERSID: %v, Name: %v, Age: %v, Email: %v"
      (conn.SelectFrom w.trace {} "people").1 (w.call (Op.SelectFrom {} "people"))
    simp only [PrintPeople, h]
    revert ht
    rcases rangeRows "PERSID: %v, Name: %v, Age: %v, Email: %v"
      (conn.SelectFrom w.trace {} "people").1 (w.call (Op.SelectFrom {} "people")) with ⟨o, w2⟩
    cases o <;> simp [World.call]

theorem PrintBoomers_trace (conn : Connection) (w : World) :
    (PrintBoomers conn w).2.trace
      = w.trace ++ [Op.SelectFromWhere {} "people" "age >= 75"] := by
  cases h : (conn.SelectFromWhere w.trace {} "people" "age >= 75").2 with
  | some e => simp [PrintBoomers, h, World.call]
  | none =>
    have ht := rangeRows_trace "BOOMER[ID: %v, Name: %v, Age: %v, Email: %v]"
      (conn.SelectFromWhere w.trace {} "people" "age >= 75").1
      (w.call (Op.SelectFromWhere {} "people" "age >= 75"))
    simp only [PrintBoomers, h]
    revert ht
    rcases rangeRows "BOOMER[ID: %v, Name: %v, Age: %v, Email: %v]"
      (conn.SelectFromWhere w.trace {} "people" "age >= 75").1
      (w.call (Op.SelectFromWhere {} "people" "age >= 75")) with ⟨o, w2⟩
    cases o <;> simp [World.call]

theorem NewPerson_eq (name : String) (age : Int) (email : String) (conn : Connection)
    (w : World) :
    NewPerson name age email conn w
      = (((conn.InsertObject w.trace "people"
              { ID := 0, Name := name, Age := age, Email := email }).1,
          (conn.InsertObject w.trace "people"
              { ID := 0, Name := name, Age := age, Email := email }).2.map
            (Errorf "failed to insert person into people table: %v")),
         w.call (Op.InsertObject "people" { ID := 0, Name := name, Age := age, Email := email })) := by
  simp only [NewPerson]
  cases (conn.InsertObject w.trace "people"
    { ID := 0, Name := name, Age := age, Email := email }).2 <;> rfl

theorem PrintPeople_fail (conn : Connection) (w : World) (e : Error)
    (h : (conn.SelectFrom w.trace {} "people").2 = some e) :
    PrintPeople conn w
      = (Outcome.returned (some { msg := "failed to select from people table: " ++ e.msg }),
         { trace := w.trace ++ [Op.SelectFrom {} "people"], log := w.log }) := by
  simp [PrintPeople, h, Errorf_select_people, World.call]

theorem PrintBoomers_fail (conn : Connection) (w : World) (e : Error)
    (h : (conn.SelectFromWhere w.trace {} "people" "age >= 75").2 = some e) :
    PrintBoomers conn w
      = (Outcome.returned (some { msg := "failed to select from people table: " ++ e.msg }),
         { trace := w.trace ++ [Op.SelectFromWhere {} "people" "age >= 75"], log := w.log }) := by
  simp [PrintBoomers, h, Errorf_select_people, World.call]

theorem PrintPeople_ok (conn : Connection) (w : World)
    (h : (conn.SelectFrom w.trace {} "people").2 = none) :
    (PrintPeople conn w).1 = Outcome.returned none ∨ (PrintPeople conn w).1 = Outcome.panicked := by
  simp only [PrintPeople, h]
  rcases rangeRows "PERSID: %v, Name: %v, Age: %v, Email: %v"
    (conn.SelectFrom w.trace {} "people").1 (w.call (Op.SelectFrom {} "people")) with ⟨o, w2⟩
  cases o <;> simp

theorem PrintBoomers_ok (conn : Connection) (w : World)
    (h : (conn.SelectFromWhere w.trace {} "people" "age >= 75").2 = none) :
    (PrintBoomers conn w).1 = Outcome.returned none
      ∨ (PrintBoomers conn w).1 = Outcome.panicked := by
  simp only [PrintBoomers, h]
  rcases rangeRows "BOOMER[ID: %v, Name: %v, Age: %v, Email: %v]"
    (conn.SelectFromWhere w.trace {} "people" "age >= 75").1
    (w.call (Op.SelectFromWhere {} "people" "age >= 75")) with ⟨o, w2⟩
  cases o <;> simp

theorem PrintPeople_persons (conn : Connection) (w : World) (ps : List Person)
    (h : conn.SelectFrom w.trace {} "people" = (ps.map Row.person, none)) :
    PrintPeople conn w
      = (Outcome.returned none,
         { trace := w.trace ++ [Op.SelectFrom {} "people"],
           log := w.log ++ ps.map (rowEntry "PERSID: %v, Name: %v, Age: %v, Email: %v") }) := by
  simp [PrintPeople, h, rangeRows_persons, World.call]

theorem PrintBoomers_persons (conn : Connection) (w : World) (ps : List Person)
    (h : conn.SelectFromWhere w.trace {} "people" "age >= 75" = (ps.map Row.person, none)) :
    PrintBoomers conn w
      = (Outcome.returned none,
         { trace := w.trace ++ [Op.SelectFromWhere {} "people" "age >= 75"],
           log := w.log ++ ps.map (rowEntry "BOOMER[ID: %v, Name: %v, Age: %v, Email: %v]") }) := by
  simp [PrintBoomers, h, rangeRows_persons, World.call]

theorem populatePeople_fail1 (conn : Connection) (w : World) (e : Error)
    (h1 : (firstInsert conn w).2 = some e) :
    populatePeople conn w
      = (some { msg := "failed to insert Jacoby Joukema into people table: "
                  ++ ("failed to insert person into people table: " ++ e.msg) },
         { trace := w.trace ++ [Op.InsertObject "people" jacoby], log := w.log }) := by
  simp only [firstInsert, jacoby] at h1
  simp [populatePeople, NewPerson_eq, h1, Errorf_insert_person, Errorf_insert_jacoby,
    World.call, jacoby]

theorem populatePeople_fail2 (conn : Connection) (w : World) (e : Error)
    (h1 : (firstInsert conn w).2 = none) (h2 : (secondInsert conn w).2 = some e) :
    populatePeople conn w
      = (some { msg := "failed to insert Jacoby Joukema into people table: "
                  ++ ("failed to insert person into people table: " ++ e.msg) },
         { trace := w.trace ++ [Op.InsertObject "people" jacoby, Op.InsertObject "people" fooBar],
           log := w.log ++ [
             { level := Level.Info, format := "Added Jacoby Joukema to database, assigned id: %v",
               args := [Value.int (firstInsert conn w).1] }] }) := by
  simp [firstInsert, secondInsert, jacoby, fooBar] at h1 h2
  simp [populatePeople, NewPerson_eq, h1, h2, Errorf_insert_person, Errorf_insert_jacoby,
    World.call, World.emit, jacoby, fooBar, firstInsert]

theorem populatePeople_fail3 (conn : Connection) (w : World) (e : Error)
    (h1 : (firstInsert conn w).2 = none) (h2 : (secondInsert conn w).2 = none)
    (h3 : (thirdInsert conn w).2 = some e) :
    populatePeople conn w
      = (some { msg := "failed to insert Jacoby Joukema into people table: "
                  ++ ("failed to insert person into people table: " ++ e.msg) },
         { trace := w.trace ++ [Op.InsertObject "people" jacoby, Op.InsertObject "people" fooBar,
             Op.InsertObject "people" johnHenry],
           log := w.log ++ [
             { level := Level.Info, format := "Added Jacoby Joukema to database, assigned id: %v",
               args := [Value.int (firstInsert conn w).1] },
             { level := Level.Info, format := "Added Foo Bar to database, assigned id: %v",
               args := [Value.int (secondInsert conn w).1] }] }) := by
  simp [firstInsert, secondInsert, thirdInsert, jacoby, fooBar, johnHenry] at h1 h2 h3
  simp [populatePeople, NewPerson_eq, h1, h2, h3, Errorf_insert_person, Errorf_insert_jacoby,
    World.call, World.emit, jacoby, fooBar, johnHenry, firstInsert, secondInsert]

theorem populatePeople_ok (conn : Connection) (w : World)
    (h1 : (firstInsert conn w).2 = none) (h2 : (secondInsert conn w).2 = none)
    (h3 : (thirdInsert conn w).2 = none) :
    populatePeople conn w
      = (none,
         { trace := w.trace ++ [Op.InsertObject "people" jacoby, Op.InsertObject "people" fooBar,
             Op.InsertObject "people" johnHenry],
           log := w.log ++ [
             { level := Level.Info, format := "Added Jacoby Joukema to database, assigned id: %v",
               args := [Value.int (firstInsert conn w).1] },
             { level := Level.Info, format := "Added Foo Bar to database, assigned id: %v",
               args := [Value.int (secondInsert conn w).1] },
             { level := Level.Info, format := "Added John Henry Eden to database, assigned id: %v",
               args := [Value.int (thirdInsert conn w).1] }] }) := by
  simp [firstInsert, secondInsert, thirdInsert, jacoby, fooBar, johnHenry] at h1 h2 h3
  simp [populatePeople, NewPerson_eq, h1, h2, h3, World.call, World.emit, jacoby, fooBar,
    johnHenry, firstInsert, secondInsert, thirdInsert]

theorem logged_trace (w : World) (err : Option Error) (format : String) :
    (match err with
      | some e => w.emit Level.Error format [Value.err e]
      | none => w).trace = w.trace := by
  cases err <;> rfl

/-- The calls `mainBody` issues: table creation, `SelectFrom`, and then `SelectFromWhere`
unless the loop of `PrintPeople` panicked. -/
theorem mainBody_trace (conn : Connection) (w : World) :
    ((mainBody conn w).2.trace
        = w.trace ++ [Op.CreateTableFromObject "people" {}, Op.SelectFrom {} "people",
            Op.SelectFromWhere {} "people" "age >= 75"])
      ∨ ((mainBody conn w).1 = Exit.panicked
        ∧ (mainBody conn w).2.trace
          = w.trace ++ [Op.CreateTableFromObject "people" {}, Op.SelectFrom {} "people"]) := by
  simp only [mainBody]
  generalize hw2 : (match conn.CreateTableFromObject w.trace "people" {} with
    | some e => (w.call (Op.CreateTableFromObject "people" {})).emit Level.Error
        "failed to create people table: %v" [Value.err e]
    | none => w.call (Op.CreateTableFromObject "people" {})) = w2
  have h2 : w2.trace = w.trace ++ [Op.CreateTableFromObject "people" {}] := by
    rw [← hw2, logged_trace]; rfl
  have hp := PrintPeople_trace conn w2
  rcases hpp : PrintPeople conn w2 with ⟨o, w3⟩
  rw [hpp] at hp
  simp only [] at hp
  cases o with
  | panicked =>
    right
    simp [hp, h2]
  | returned err =>
    simp only []
    generalize hw4 : (match err with
      | some e => w3.emit Level.Error "encountered an error while attempting to print table"
          [Value.err e]
      | none => w3) = w4
    have h4 : w4.trace = w3.trace := by rw [← hw4, logged_trace]
    have hb := PrintBoomers_trace conn w4
    rcases hbb : PrintBoomers conn w4 with ⟨o2, w5⟩
    rw [hbb] at hb
    simp only [] at hb
    left
    cases o2 with
    | panicked => simp [hb, h4, hp, h2]
    | returned err2 =>
      simp only []
      rw [logged_trace, hb, h4, hp, h2]
      simp

theorem main_ok (Connect : ConnectionConfig → Except Error Connection) (conn : Connection)
    (h : Connect dbConfig = Except.ok conn) :
    main Connect
      = ((mainBody conn (World.start.emit Level.Info "Attempting to Connect to SQL Server" [])).1,
         (mainBody conn
            (World.start.emit Level.Info "Attempting to Connect to SQL Server" [])).2.call
           Op.Close) := by
  simp [main, h]

/-- The two shapes of a connected run's trace. -/
theorem main_trace_cases (Connect : ConnectionConfig → Except Error Connection)
    (conn : Connection) (h : Connect dbConfig = Except.ok conn) :
    (main Connect).2.trace
        = [Op.CreateTableFromObject "people" {}, Op.SelectFrom {} "people",
            Op.SelectFromWhere {} "people" "age >= 75", Op.Close]
      ∨ ((main Connect).1 = Exit.panicked
        ∧ (main Connect).2.trace
          = [Op.CreateTableFromObject "people" {}, Op.SelectFrom {} "people", Op.Close]) := by
  rw [main_ok Connect conn h]
  rcases mainBody_trace conn
    (World.start.emit Level.Info "Attempting to Connect to SQL Server" []) with ht | ⟨hp, ht⟩
  · left
    simp only [World.call]
    rw [ht]
    rfl
  · right
    refine ⟨hp, ?_⟩
    simp only [World.call]
    rw [ht]
    rfl

/-! ## The claims -/

/-- C1: for every name, age, email, connection and prior history, `NewPerson` issues
exactly one call on the connection, `InsertObject` on table `people` with the record
`Person{ID: 0, Name: name, Age: age, Email: email}`, and logs nothing; when that call
succeeds `NewPerson` returns its identity and a nil error; when it fails with error `e`
the returned error's message is `failed to insert person into people table: ` followed by
`e`'s message; and `NewPerson` returns an error exactly when `InsertObject` does. -/
theorem NewPerson_contract (name : String) (age : Int) (email : String) (conn : Connection)
    (w : World) :
    (NewPerson name age email conn w).2.trace
        = w.trace ++ [Op.InsertObject "people" { ID := 0, Name := name, Age := age, Email := email }]
      ∧ (NewPerson name age email conn w).2.log = w.log
      ∧ (∀ id : Int,
          conn.InsertObject w.trace "people" { ID := 0, Name := name, Age := age, Email := email }
              = (id, none) →
            (NewPerson name age email conn w).1 = (id, none))
      ∧ (∀ (id : Int) (e : Error),
          conn.InsertObject w.trace "people" { ID := 0, Name := name, Age := age, Email := email }
              = (id, some e) →
            (NewPerson name age email conn w).1
              = (id, some { msg := "failed to insert person into people table: " ++ e.msg }))
      ∧ ((NewPerson name age email conn w).1.2 ≠ none ↔
          (conn.InsertObject w.trace "people"
            { ID := 0, Name := name, Age := age, Email := email }).2 ≠ none) := by
  have key := NewPerson_eq name age email conn w
  refine ⟨?_, ?_, ?_, ?_, ?_⟩
  · rw [key]; rfl
  · rw [key]; rfl
  · intro id h
    rw [key, h]; rfl
  · intro id e h
    rw [key, h]; simp [Errorf_insert_person]
  · rw [key]
    cases (conn.InsertObject w.trace "people"
      { ID := 0, Name := name, Age := age, Email := email }).2 <;> simp

/-- C1 at concrete inputs: on a connection whose insert succeeds with identity 1 the result
is `(1, nil)`, and the theorem's other parts hold there. -/
theorem NewPerson_contract_witness :
    (NewPerson "Foo Bar" 28 "foobar@inflowml.com" quietConn World.start).1 = (1, none)
      ∧ (NewPerson "Foo Bar" 28 "foobar@inflowml.com" brokenConn World.start).1
          = (0, some { msg := "failed to insert person into people table: boom" }) :=
  ⟨(NewPerson_contract "Foo Bar" 28 "foobar@inflowml.com" quietConn World.start).2.2.1 1 rfl,
   (NewPerson_contract "Foo Bar" 28 "foobar@inflowml.com" brokenConn World.start).2.2.2.1 0
      { msg := "boom" } rfl⟩

/-- C2: the fields of `Person`, in declaration order, have the column names id, name, age,
email; exactly one of them, `ID` with column `id`, carries the column option `PRIMARY KEY`;
that field is declared `int32` and has the storage type `SERIAL`; no other field declares a
storage type or a column option. -/
theorem Person_has_one_identity_column :
    PersonFields.map (fun f => f.name) = ["ID", "Name", "Age", "Email"]
      ∧ PersonFields.map (fun f => f.lookup "sql")
          = [some "id", some "name", some "age", some "email"]
      ∧ PersonFields.filter (fun f => f.lookup "opt" == some "PRIMARY KEY")
          = [{ name := "ID", typ := GoType.int32,
               tag := [("sql", "id"), ("typ", "SERIAL"), ("opt", "PRIMARY KEY")] }]
      ∧ (PersonFields.filter (fun f => f.lookup "opt" == some "PRIMARY KEY")).length = 1
      ∧ (∀ f ∈ PersonFields, f.lookup "opt" = some "PRIMARY KEY" →
          f.name = "ID" ∧ f.lookup "sql" = some "id" ∧ f.typ = GoType.int32
            ∧ f.lookup "typ" = some "SERIAL")
      ∧ (∀ f ∈ PersonFields, f.name ≠ "ID" → f.lookup "typ" = none ∧ f.lookup "opt" = none) := by
  decide

/-- C6: `PrintPeople` and `PrintBoomers` return a non-nil error exactly when their select
call (`SelectFrom`, resp. `SelectFromWhere` with the filter `age >= 75`) fails; the error's
message is then `failed to select from people table: ` followed by the underlying message,
exactly one call was issued on the connection, and nothing was logged. -/
theorem Print_error_iff_select_fails (conn : Connection) (w : World) :
    ((∃ e, (PrintPeople conn w).1 = Outcome.returned (some e))
        ↔ (conn.SelectFrom w.trace {} "people").2 ≠ none)
      ∧ (∀ e, (conn.SelectFrom w.trace {} "people").2 = some e →
          PrintPeople conn w
            = (Outcome.returned
                (some { msg := "failed to select from people table: " ++ e.msg }),
               { trace := w.trace ++ [Op.SelectFrom {} "people"], log := w.log }))
      ∧ ((∃ e, (PrintBoomers conn w).1 = Outcome.returned (some e))
        ↔ (conn.SelectFromWhere w.trace {} "people" "age >= 75").2 ≠ none)
      ∧ (∀ e, (conn.SelectFromWhere w.trace {} "people" "age >= 75").2 = some e →
          PrintBoomers conn w
            = (Outcome.returned
                (some { msg := "failed to select from people table: " ++ e.msg }),
               { trace := w.trace ++ [Op.SelectFromWhere {} "people" "age >= 75"],
                 log := w.log })) := by
  refine ⟨?_, fun e h => PrintPeople_fail conn w e h, ?_, fun e h => PrintBoomers_fail conn w e h⟩
  · cases h : (conn.SelectFrom w.trace {} "people").2 with
    | some e => simp [PrintPeople_fail conn w e h]
    | none => rcases PrintPeople_ok conn w h with h1 | h1 <;> simp [h1]
  · cases h : (conn.SelectFromWhere w.trace {} "people" "age >= 75").2 with
    | some e => simp [PrintBoomers_fail conn w e h]
    | none => rcases PrintBoomers_ok conn w h with h1 | h1 <;> simp [h1]

/-- C6 at a concrete input: on a connection whose selects fail with `boom`, both functions
return the wrapped error and log nothing. -/
theorem Print_error_iff_select_fails_witness :
    PrintPeople brokenConn World.start
        = (Outcome.returned (some { msg := "failed to select from people table: boom" }),
           { trace := [Op.SelectFrom {} "people"], log := [] })
      ∧ PrintBoomers brokenConn World.start
        = (Outcome.returned (some { msg := "failed to select from people table: boom" }),
           { trace := [Op.SelectFromWhere {} "people" "age >= 75"], log := [] }) :=
  ⟨(Print_error_iff_select_fails brokenConn World.start).2.1 { msg := "boom" } rfl,
   (Print_error_iff_select_fails brokenConn World.start).2.2.2 { msg := "boom" } rfl⟩

/-- C7: whenever `SelectFrom` succeeds with rows that are all `Person` values, `PrintPeople`
returns nil without panicking and logs exactly one `Info` line per row, in the order
returned, carrying that row's ID, Name, Age and Email; likewise `PrintBoomers` whenever
`SelectFromWhere` succeeds with such rows; each on its own select only.  With an empty
result set each logs nothing and returns nil. -/
theorem Print_logs_one_line_per_row (conn : Connection) (w : World) :
    (∀ ps : List Person, conn.SelectFrom w.trace {} "people" = (ps.map Row.person, none) →
        PrintPeople conn w
          = (Outcome.returned none,
             { trace := w.trace ++ [Op.SelectFrom {} "people"],
               log := w.log ++ ps.map (fun p =>
                 { level := Level.Info, format := "PERSID: %v, Name: %v, Age: %v, Email: %v",
                   args := [Value.int p.ID, Value.str p.Name, Value.int p.Age,
                     Value.str p.Email] }) }))
      ∧ (∀ qs : List Person,
          conn.SelectFromWhere w.trace {} "people" "age >= 75" = (qs.map Row.person, none) →
        PrintBoomers conn w
          = (Outcome.returned none,
             { trace := w.trace ++ [Op.SelectFromWhere {} "people" "age >= 75"],
               log := w.log ++ qs.map (fun p =>
                 { level := Level.Info,
                   format := "BOOMER[ID: %v, Name: %v, Age: %v, Email: %v]",
                   args := [Value.int p.ID, Value.str p.Name, Value.int p.Age,
                     Value.str p.Email] }) }))
      ∧ (conn.SelectFrom w.trace {} "people" = ([], none) →
          PrintPeople conn w
            = (Outcome.returned none,
               { trace := w.trace ++ [Op.SelectFrom {} "people"], log := w.log }))
      ∧ (conn.SelectFromWhere w.trace {} "people" "age >= 75" = ([], none) →
          PrintBoomers conn w
            = (Outcome.returned none,
               { trace := w.trace ++ [Op.SelectFromWhere {} "people" "age >= 75"],
                 log := w.log })) := by
  refine ⟨fun ps hp => PrintPeople_persons conn w ps hp,
    fun qs hq => PrintBoomers_persons conn w qs hq, ?_, ?_⟩
  · intro h
    have h1 := PrintPeople_persons conn w [] h
    simpa using h1
  · intro h
    have h1 := PrintBoomers_persons conn w [] h
    simpa using h1

/-- C7 at concrete inputs: on a store whose `SelectFrom` returns the three records while
`SelectFromWhere` fails, `PrintPeople` logs the three records in order; on the populated
store `PrintBoomers` logs the one aged 97. -/
theorem Print_logs_one_line_per_row_witness :
    PrintPeople peopleOnlyConn World.start
        = (Outcome.returned none,
           { trace := [Op.SelectFrom {} "people"],
             log :=
              [ { level := Level.Info, format := "PERSID: %v, Name: %v, Age: %v, Email: %v",
                  args := [Value.int 1, Value.str "Jacoby Joukema", Value.int 23,
                    Value.str "jacoby.joukema@inflowml.com"] },
                { level := Level.Info, format := "PERSID: %v, Name: %v, Age: %v, Email: %v",
                  args := [Value.int 2, Value.str "Foo Bar", Value.int 28,
                    Value.str "foobar@inflowml.com"] },
                { level := Level.Info, format := "PERSID: %v, Name: %v, Age: %v, Email: %v",
                  args := [Value.int 3, Value.str "John Henry Eden", Value.int 97,
                    Value.str "john.henry@enclave.com"] } ] })
      ∧ PrintBoomers populatedConn World.start
        = (Outcome.returned none,
           { trace := [Op.SelectFromWhere {} "people" "age >= 75"],
             log :=
              [ { level := Level.Info,
                  format := "BOOMER[ID: %v, Name: %v, Age: %v, Email: %v]",
                  args := [Value.int 3, Value.str "John Henry Eden", Value.int 97,
                    Value.str "john.henry@enclave.com"] } ] }) :=
  ⟨(Print_logs_one_line_per_row peopleOnlyConn World.start).1 storedPeople rfl,
   (Print_logs_one_line_per_row populatedConn World.start).2.1 (storedPeople.drop 2) rfl⟩

/-- C5: when all three inserts succeed, `populatePeople` returns nil and issues exactly three
calls, `InsertObject` on `people` with (Jacoby Joukema, 23, jacoby.joukema@inflowml.com),
(Foo Bar, 28, foobar@inflowml.com), (John Henry Eden, 97, john.henry@enclave.com), in this
order; `PrintBoomers` passes the condition `age >= 75` on table `people` to
`SelectFromWhere`; and whatever identities the store assigned, that condition is satisfied
by exactly one of the three records, the one aged 97. -/
theorem populatePeople_three_records (conn : Connection) (w : World)
    (h1 : (firstInsert conn w).2 = none) (h2 : (secondInsert conn w).2 = none)
    (h3 : (thirdInsert conn w).2 = none) :
    (populatePeople conn w).1 = none
      ∧ (populatePeople conn w).2.trace
        = w.trace ++
          [ Op.InsertObject "people"
              { ID := 0, Name := "Jacoby Joukema", Age := 23,
                Email := "jacoby.joukema@inflowml.com" },
            Op.InsertObject "people"
              { ID := 0, Name := "Foo Bar", Age := 28, Email := "foobar@inflowml.com" },
            Op.InsertObject "people"
              { ID := 0, Name := "John Henry Eden", Age := 97,
                Email := "john.henry@enclave.com" } ]
      ∧ (∀ (c : Connection) (v : World),
          (PrintBoomers c v).2.trace = v.trace ++ [Op.SelectFromWhere {} "people" "age >= 75"])
      ∧ (∀ i j k : Int,
          [ { jacoby with ID := i }, { fooBar with ID := j }, { johnHenry with ID := k } ].filter
              (fun p => satisfies "age >= 75" p == some true)
            = [{ ID := k, Name := "John Henry Eden", Age := 97,
                 Email := "john.henry@enclave.com" }]) := by
  refine ⟨?_, ?_, PrintBoomers_trace, ?_⟩
  · rw [populatePeople_ok conn w h1 h2 h3]
  · rw [populatePeople_ok conn w h1 h2 h3]; rfl
  · intro i j k
    rfl

/-- C5 at a concrete input: on a connection whose inserts all succeed, started from an empty
history, exactly the three inserts are issued. -/
theorem populatePeople_three_records_witness :
    (populatePeople quietConn World.start).2.trace
      = [ Op.InsertObject "people"
            { ID := 0, Name := "Jacoby Joukema", Age := 23,
              Email := "jacoby.joukema@inflowml.com" },
          Op.InsertObject "people"
            { ID := 0, Name := "Foo Bar", Age := 28, Email := "foobar@inflowml.com" },
          Op.InsertObject "people"
            { ID := 0, Name := "John Henry Eden", Age := 97,
              Email := "john.henry@enclave.com" } ] :=
  (populatePeople_three_records quietConn World.start rfl rfl rfl).2.1

/-- C8, evaluated where it fails: when the first insert succeeds and the second (Foo Bar)
fails with `boom`, the error `populatePeople` returns reads `failed to insert Jacoby Joukema
into people table: failed to insert person into people table: boom`; it names the table but
not `Foo Bar`, whose insert failed. -/
theorem populatePeople_second_failure_message :
    (populatePeople secondInsertFails World.start).1
        = some { msg := "failed to insert Jacoby Joukema into people table: "
                    ++ "failed to insert person into people table: boom" }
      ∧ (populatePeople secondInsertFails World.start).2.trace
        = [Op.InsertObject "people" jacoby, Op.InsertObject "people" fooBar]
      ∧ (populatePeople secondInsertFails World.start).1.map
          (fun e => (occursIn "people".data e.msg.data, occursIn "Foo Bar".data e.msg.data,
            occursIn "Jacoby Joukema".data e.msg.data))
        = some (true, false, true) := by
  decide

/-- C10: `populatePeople` returns nil exactly when all three inserts succeed; when the first
insert fails, exactly one `InsertObject` call was issued; when the first succeeds and the
second fails, exactly two; when the first two succeed and the third fails, exactly three;
in each failing case the returned error wraps the failure's message (twice: by `NewPerson`
and by `populatePeople`), and only the successful inserts before it were logged. -/
theorem populatePeople_stops_at_first_failure (conn : Connection) (w : World) :
    ((populatePeople conn w).1 = none ↔
        (firstInsert conn w).2 = none ∧ (secondInsert conn w).2 = none
          ∧ (thirdInsert conn w).2 = none)
      ∧ (∀ e, (firstInsert conn w).2 = some e →
          populatePeople conn w
            = (some { msg := "failed to insert Jacoby Joukema into people table: "
                        ++ ("failed to insert person into people table: " ++ e.msg) },
               { trace := w.trace ++ [Op.InsertObject "people" jacoby], log := w.log }))
      ∧ (∀ e, (firstInsert conn w).2 = none → (secondInsert conn w).2 = some e →
          populatePeople conn w
            = (some { msg := "failed to insert Jacoby Joukema into people table: "
                        ++ ("failed to insert person into people table: " ++ e.msg) },
               { trace := w.trace
                   ++ [Op.InsertObject "people" jacoby, Op.InsertObject "people" fooBar],
                 log := w.log ++ [
                   { level := Level.Info,
                     format := "Added Jacoby Joukema to database, assigned id: %v",
                     args := [Value.int (firstInsert conn w).1] }] }))
      ∧ (∀ e, (firstInsert conn w).2 = none → (secondInsert conn w).2 = none →
          (thirdInsert conn w).2 = some e →
          populatePeople conn w
            = (some { msg := "failed to insert Jacoby Joukema into people table: "
                        ++ ("failed to insert person into people table: " ++ e.msg) },
               { trace := w.trace
                   ++ [Op.InsertObject "people" jacoby, Op.InsertObject "people" fooBar,
                     Op.InsertObject "people" johnHenry],
                 log := w.log ++ [
                   { level := Level.Info,
                     format := "Added Jacoby Joukema to database, assigned id: %v",
                     args := [Value.int (firstInsert conn w).1] },
                   { level := Level.Info,
                     format := "Added Foo Bar to database, assigned id: %v",
                     args := [Value.int (secondInsert conn w).1] }] })) := by
  refine ⟨?_, populatePeople_fail1 conn w, populatePeople_fail2 conn w,
    populatePeople_fail3 conn w⟩
  cases h1 : (firstInsert conn w).2 with
  | some e => simp [populatePeople_fail1 conn w e h1]
  | none =>
    cases h2 : (secondInsert conn w).2 with
    | some e => simp [populatePeople_fail2 conn w e h1 h2]
    | none =>
      cases h3 : (thirdInsert conn w).2 with
      | some e => simp [populatePeople_fail3 conn w e h1 h2 h3]
      | none => simp [populatePeople_ok conn w h1 h2 h3]

/-- C10 at a concrete input: when the first two inserts succeed and the third fails with
`boom`, three inserts were issued and the wrapped error is returned. -/
theorem populatePeople_stops_at_first_failure_witness :
    populatePeople thirdInsertFails World.start
      = (some { msg := "failed to insert Jacoby Joukema into people table: "
                  ++ ("failed to insert person into people table: " ++ "boom") },
         { trace := [Op.InsertObject "people" jacoby, Op.InsertObject "people" fooBar,
             Op.InsertObject "people" johnHenry],
           log := [
             { level := Level.Info, format := "Added Jacoby Joukema to database, assigned id: %v",
               args := [Value.int 1] },
             { level := Level.Info, format := "Added Foo Bar to database, assigned id: %v",
               args := [Value.int 2] }] }) :=
  (populatePeople_stops_at_first_failure thirdInsertFails World.start).2.2.2
    { msg := "boom" } rfl rfl rfl

/-- C3, refuted as stated: when `Connect` fails, `logger.Fatal` ends the process before the
deferred `Close` can run, so the trace is empty and `Close` is not called once. -/
theorem main_refused_never_closes :
    (main refusedConnect).1 = Exit.fatal
      ∧ (main refusedConnect).2.trace = []
      ∧ ¬ ((main refusedConnect).2.trace.count Op.Close = 1) := by
  decide

/-- C3, amended: in every run of `main` in which `Connect` succeeds, whatever the outcomes
of `CreateTableFromObject`, `SelectFrom` and `SelectFromWhere` and whether `main` returns or
a panic unwinds it, `Close` is called exactly once, and it is the last call on the
connection. -/
theorem main_closes_once_when_connected
    (Connect : ConnectionConfig → Except Error Connection) (conn : Connection)
    (h : Connect dbConfig = Except.ok conn) :
    (main Connect).2.trace.count Op.Close = 1
      ∧ ∃ ops, (main Connect).2.trace = ops ++ [Op.Close] ∧ Op.Close ∉ ops := by
  rcases main_trace_cases Connect conn h with ht | ⟨_, ht⟩
  · rw [ht]
    exact ⟨by decide,
      [Op.CreateTableFromObject "people" {}, Op.SelectFrom {} "people",
        Op.SelectFromWhere {} "people" "age >= 75"], rfl, by decide⟩
  · rw [ht]
    exact ⟨by decide,
      [Op.CreateTableFromObject "people" {}, Op.SelectFrom {} "people"], rfl, by decide⟩

/-- C3, amended, at a concrete input: on a connection whose first select returns a row that
is not a `Person`, `main` panics and `Close` is still called exactly once. -/
theorem main_closes_once_when_connected_witness :
    (main (fun _ => Except.ok untypedConn)).1 = Exit.panicked
      ∧ (main (fun _ => Except.ok untypedConn)).2.trace.count Op.Close = 1 :=
  ⟨by decide, (main_closes_once_when_connected (fun _ => Except.ok untypedConn) untypedConn rfl).1⟩

/-- C4, refuted as stated: on a connection where every call succeeds, `main` issues table
creation, the two selects and `Close`, and no `InsertObject` at all. -/
theorem main_quiet_run_has_no_insert :
    (main (fun _ => Except.ok quietConn)).2.trace
        = [Op.CreateTableFromObject "people" {}, Op.SelectFrom {} "people",
            Op.SelectFromWhere {} "people" "age >= 75", Op.Close]
      ∧ (main (fun _ => Except.ok quietConn)).2.trace.any Op.isInsert = false := by
  decide

/-- C4, amended: in every run of `main` in which `Connect` succeeds, `main` creates the
`people` table and then selects from it without inserting: the trace begins with
`CreateTableFromObject` followed by `SelectFrom`, and it contains no `InsertObject` call. -/
theorem main_creates_then_selects_without_insert
    (Connect : ConnectionConfig → Except Error Connection) (conn : Connection)
    (h : Connect dbConfig = Except.ok conn) :
    (main Connect).2.trace.take 2
        = [Op.CreateTableFromObject "people" {}, Op.SelectFrom {} "people"]
      ∧ (main Connect).2.trace.any Op.isInsert = false := by
  rcases main_trace_cases Connect conn h with ht | ⟨_, ht⟩
  · rw [ht]
    decide
  · rw [ht]
    decide

/-- C4, amended, at a concrete input: on the populated store no insert is issued. -/
theorem main_creates_then_selects_without_insert_witness :
    (main (fun _ => Except.ok populatedConn)).2.trace.any Op.isInsert = false :=
  (main_creates_then_selects_without_insert (fun _ => Except.ok populatedConn)
    populatedConn rfl).2

end StructqlDemo
